import Mathlib

/-!
Verification of the change-detection / retention / privacy-gate core of
`backup_script.py` (cloudflare-imgbed-auto-backup).

The script is embedded shallowly:

* Python/JSON values are `PyVal` (with an `other` constructor for values
  that `json.dumps` cannot serialize);
* `json.dumps(data, sort_keys=True, separators=(',', ':'))` followed by
  `hashlib.md5(...).hexdigest()` is `calculate_data_hash`, parameterized by
  an arbitrary digest function `hashFn : String → String` standing for
  `md5 ∘ hexdigest` (every theorem below holds for any such function);
* the filesystem visible to the script (the `backups/` directory, the
  `latest_backup.json` pointer, the `.privacy_verified` marker) is explicit
  data threaded through the functions;
* the GitHub metadata request of `check_repository_privacy` is an oracle
  value `GateQueryOutcome` describing what the single `requests.get` call
  would return, and the `main` orchestration is a function from that oracle
  (plus the outcome of `download_backup`, which is external) to the exit
  code.
-/

/-- A Python value as handled by the script: the JSON-representable
constructors plus `other`, a value with no JSON serialization (for example a
`set`), on which `json.dumps` raises. -/
inductive PyVal where
  | null
  | bool (b : Bool)
  | int (n : Int)
  | str (s : String)
  | arr (xs : List PyVal)
  | obj (kvs : List (String × PyVal))
  | other (tag : Nat)

/-- Python truthiness (`if not is_private:`) for the modelled values. -/
def pyTruthy : PyVal → Bool
  | PyVal.null => false
  | PyVal.bool b => b
  | PyVal.int n => n != 0
  | PyVal.str s => !s.isEmpty
  | PyVal.arr xs => !xs.isEmpty
  | PyVal.obj kvs => !kvs.isEmpty
  | PyVal.other _ => true

/-- First value bound to key `k` in an association list (Python `dict`s have
unique keys, so this is the dict lookup). -/
def lookupKey (k : String) (kvs : List (String × PyVal)) : Option PyVal :=
  (kvs.find? (fun kv => kv.1 == k)).map (fun kv => kv.2)

/-- `dict.get(k, default)`: `lookupKey` with a default. -/
def pyDictGet (k : String) (kvs : List (String × PyVal)) (dflt : PyVal) : PyVal :=
  (lookupKey k kvs).getD dflt

/-- Lower-case hexadecimal digit, as used by Python `\uXXXX` escapes. -/
def hexDigit (n : Nat) : Char :=
  if n < 10 then Char.ofNat (48 + n) else Char.ofNat (87 + n)

/-- Four-digit lower-case hexadecimal rendering of `n % 0x10000`. -/
def hex4 (n : Nat) : String :=
  String.mk [hexDigit (n / 4096 % 16), hexDigit (n / 256 % 16),
             hexDigit (n / 16 % 16), hexDigit (n % 16)]

/-- `json.dumps` escaping of one character with the default
`ensure_ascii=True`: printable ASCII other than `"` and `\` is kept, the
two-character escapes are used where they exist, everything else becomes
`\uXXXX` (with a surrogate pair above U+FFFF). -/
def jsonEscapeChar (c : Char) : String :=
  if c = '"' then "\\\""
  else if c = '\\' then "\\\\"
  else if c = '\n' then "\\n"
  else if c = '\r' then "\\r"
  else if c = '\t' then "\\t"
  else if c.toNat = 8 then "\\b"
  else if c.toNat = 12 then "\\f"
  else if 32 ≤ c.toNat ∧ c.toNat ≤ 126 then String.singleton c
  else if c.toNat < 65536 then "\\u" ++ hex4 c.toNat
  else
    "\\u" ++ hex4 (55296 + (c.toNat - 65536) / 1024) ++
    "\\u" ++ hex4 (56320 + (c.toNat - 65536) % 1024)

/-- A JSON string literal for `s` (quotes plus escaping). -/
def jsonQuote (s : String) : String :=
  "\"" ++ String.join (s.data.map jsonEscapeChar) ++ "\""

/-- Python string comparison: lexicographic on code points (a proper prefix
precedes its extensions). -/
def charListLE : List Char → List Char → Bool
  | [], _ => true
  | _ :: _, [] => false
  | a :: as, b :: bs =>
      a.toNat < b.toNat || (a.toNat == b.toNat && charListLE as bs)

/-- `a <= b` on Python strings. -/
def pyStrLE (a b : String) : Bool := charListLE a.data b.data

/-- Comparison used by `sort_keys=True`: pairs ordered by their key. -/
def pairLE (a b : String × PyVal) : Prop := pyStrLE a.1 b.1 = true

instance : DecidableRel pairLE :=
  fun a b => inferInstanceAs (Decidable (pyStrLE a.1 b.1 = true))

instance : IsTotal (String × PyVal) pairLE := by
  constructor
  intro a b
  unfold pairLE pyStrLE
  generalize a.1.data = as
  generalize b.1.data = bs
  induction as generalizing bs with
  | nil => left; rfl
  | cons x xs ih =>
    cases bs with
    | nil => right; rfl
    | cons y ys =>
      rcases Nat.lt_trichotomy x.toNat y.toNat with h | h | h
      · left; simp [charListLE, h]
      · rcases ih ys with h' | h'
        · left; simp [charListLE, h, h']
        · right; simp [charListLE, h.symm, h']
      · right; simp [charListLE, h]

instance : IsTrans (String × PyVal) pairLE := by
  constructor
  intro a b c
  unfold pairLE pyStrLE
  generalize a.1.data = as
  generalize b.1.data = bs
  generalize c.1.data = cs
  induction as generalizing bs cs with
  | nil => intro _ _; rfl
  | cons x xs ih =>
    intro h₁ h₂
    cases bs with
    | nil => simp [charListLE] at h₁
    | cons y ys =>
      cases cs with
      | nil => simp [charListLE] at h₂
      | cons z zs =>
        simp only [charListLE, Bool.or_eq_true, Bool.and_eq_true, decide_eq_true_eq,
          beq_iff_eq] at h₁ h₂ ⊢
        rcases h₁ with h₁ | ⟨h₁e, h₁r⟩
        · rcases h₂ with h₂ | ⟨h₂e, h₂r⟩
          · exact Or.inl (h₁.trans h₂)
          · exact Or.inl (h₂e ▸ h₁)
        · rcases h₂ with h₂ | ⟨h₂e, h₂r⟩
          · exact Or.inl (h₁e ▸ h₂)
          · exact Or.inr ⟨h₁e.trans h₂e, ih ys zs h₁r h₂r⟩

/-- The stable key sort `sort_keys=True` performs on each mapping. -/
def sortPairs (kvs : List (String × PyVal)) : List (String × PyVal) :=
  List.insertionSort pairLE kvs

/-- `','.join`. -/
def joinComma (parts : List String) : String :=
  String.intercalate "," parts

mutual
/-- `json.dumps(v, sort_keys=True, separators=(',', ':'))` — `none` when the
value is not serializable (the `TypeError` branch of `calculate_data_hash`). -/
def serializeVal : PyVal → Option String
  | PyVal.null => some "null"
  | PyVal.bool true => some "true"
  | PyVal.bool false => some "false"
  | PyVal.int n => some (toString n)
  | PyVal.str s => some (jsonQuote s)
  | PyVal.other _ => none
  | PyVal.arr xs =>
      (serializeItems xs).map (fun parts => "[" ++ joinComma parts ++ "]")
  | PyVal.obj kvs =>
      (serializePairs (sortPairs kvs)).map
        (fun parts => "\x7b" ++ joinComma parts ++ "\x7d")
termination_by v => sizeOf v
decreasing_by
  all_goals simp_wf
  all_goals
    (have h := (List.perm_insertionSort pairLE kvs).sizeOf_eq_sizeOf
     simp only [sortPairs]
     omega)

/-- Serialization of the elements of a JSON array, left to right. -/
def serializeItems : List PyVal → Option (List String)
  | [] => some []
  | v :: vs =>
      match serializeVal v, serializeItems vs with
      | some s, some ss => some (s :: ss)
      | _, _ => none
termination_by vs => sizeOf vs
decreasing_by
  all_goals simp_wf
  all_goals omega

/-- Serialization of the (already key-sorted) entries of a JSON object. -/
def serializePairs : List (String × PyVal) → Option (List String)
  | [] => some []
  | (k, v) :: kvs =>
      match serializeVal v, serializePairs kvs with
      | some s, some ss => some ((jsonQuote k ++ ":" ++ s) :: ss)
      | _, _ => none
termination_by kvs => sizeOf kvs
decreasing_by
  all_goals simp_wf
  all_goals omega
end

mutual
/-- The canonical form a value serializes as: every mapping's entries sorted
by key, at every depth.  Two values are "structurally equal up to the
ordering of dictionary keys" exactly when their canonical forms are equal. -/
def normalizeVal : PyVal → PyVal
  | PyVal.arr xs => PyVal.arr (normalizeList xs)
  | PyVal.obj kvs => PyVal.obj (sortPairs (normalizePairs kvs))
  | v => v
termination_by structural v => v

/-- `normalizeVal` mapped over a list of values. -/
def normalizeList : List PyVal → List PyVal
  | [] => []
  | v :: vs => normalizeVal v :: normalizeList vs
termination_by structural vs => vs

/-- `normalizeVal` mapped over the values of an association list. -/
def normalizePairs : List (String × PyVal) → List (String × PyVal)
  | [] => []
  | (k, v) :: kvs => (k, normalizeVal v) :: normalizePairs kvs
termination_by structural kvs => kvs
end

/-- `calculate_data_hash`: MD5 of the canonical serialization, `None` when
serialization raises.  `hashFn` abstracts `md5(...).hexdigest()`. -/
def calculate_data_hash (hashFn : String → String) (data : PyVal) : Option String :=
  (serializeVal data).map hashFn

/-! ## Privacy gate (`check_repository_privacy`) and orchestration (`main`) -/

/-- What the single `requests.get` to `https://api.github.com/repos/{repo}`
would produce, were it issued: HTTP 404, another non-200 status, a network
error (`requests.exceptions.RequestException`), a 200 whose body fails JSON
parsing (swallowed by the generic `except`), or a 200 with a parsed body. -/
inductive GateQueryOutcome where
  | notFound
  | httpError (code : Nat)
  | networkError
  | parseError
  | ok (body : PyVal)

/-- The environment `check_repository_privacy` runs against: the two
credentials (`None` when the variable is unset), the query oracle, whether
`backups/.privacy_verified` already exists, and whether writing that marker
would raise (the inner `except` at the marker write). -/
structure GateInput where
  token : Option String
  repository : Option String
  outcome : GateQueryOutcome
  markerExists : Bool
  markerWriteFails : Bool

/-- Observable result of one `check_repository_privacy` call: the returned
boolean, whether the GitHub API request was issued, whether the marker file
was created during the call, and the `logger.error` diagnostics emitted. -/
structure GateResult where
  verdict : Bool
  queryIssued : Bool
  markerWritten : Bool
  errorLogs : List String

/-- Python falsiness of an optional string (`not self.github_token`): unset
or empty. -/
def strFalsy : Option String → Bool
  | none => true
  | some s => s.isEmpty

/-- `check_repository_privacy`, lines 75–158 of `backup_script.py`. -/
def check_repository_privacy (inp : GateInput) : GateResult :=
  if strFalsy inp.token || strFalsy inp.repository then
    { verdict := false, queryIssued := false, markerWritten := false,
      errorLogs :=
        ["❌ 安全检查失败：缺少GitHub Token或Repository信息",
         "无法验证仓库隐私状态，为了安全起见，备份任务将被终止",
         "环境变量要求：GITHUB_TOKEN 和 GITHUB_REPOSITORY",
         "注意：本程序强制要求使用私有仓库，此检查无法禁用"] }
  else
    match inp.outcome with
    | GateQueryOutcome.notFound =>
        { verdict := false, queryIssued := true, markerWritten := false,
          errorLogs := ["❌ 仓库不存在或无权限访问"] }
    | GateQueryOutcome.httpError code =>
        { verdict := false, queryIssued := true, markerWritten := false,
          errorLogs := ["❌ GitHub API请求失败，状态码: " ++ toString code] }
    | GateQueryOutcome.networkError =>
        { verdict := false, queryIssued := true, markerWritten := false,
          errorLogs :=
            ["❌ 网络请求失败",
             "无法验证仓库隐私状态，为了安全起见，备份任务将被终止"] }
    | GateQueryOutcome.parseError =>
        { verdict := false, queryIssued := true, markerWritten := false,
          errorLogs :=
            ["❌ 隐私检查过程中发生错误", "为了安全起见，备份任务将被终止"] }
    | GateQueryOutcome.ok body =>
        match body with
        | PyVal.obj kvs =>
            if !pyTruthy (pyDictGet "private" kvs (PyVal.bool false)) then
              { verdict := false, queryIssued := true, markerWritten := false,
                errorLogs :=
                  ["❌ 🚨 严重安全警告：仓库当前为公开状态！ 🚨",
                   "📢 此项目会备份包含敏感信息的数据文件！",
                   "⚠️  为了您的数据安全，备份任务现在将被终止"] }
            else
              { verdict := true, queryIssued := true,
                markerWritten := !inp.markerExists && !inp.markerWriteFails,
                errorLogs := [] }
        | _ =>
            -- `repo_info.get` raises on a non-dict body; the generic
            -- `except Exception` returns False.
            { verdict := false, queryIssued := true, markerWritten := false,
              errorLogs :=
                ["❌ 隐私检查过程中发生错误", "为了安全起见，备份任务将被终止"] }

/-- Outcome of one `main()` run: process exit code and whether
`download_backup` was invoked. -/
structure RunResult where
  exitCode : Nat
  downloadInvoked : Bool

/-- `main`, lines 361–391: privacy gate first; on Block, `exit(1)` without
calling `download_backup`; on Pass, the run's exit code reflects
`download_backup`'s result (an external collaborator, given as `downloadOk`). -/
def mainRun (inp : GateInput) (downloadOk : Bool) : RunResult :=
  let gate := check_repository_privacy inp
  if gate.verdict then
    if downloadOk then { exitCode := 0, downloadInvoked := true }
    else { exitCode := 1, downloadInvoked := true }
  else
    { exitCode := 1, downloadInvoked := false }

/-! ## Snapshot store, change detection, retention -/

/-- The `backups/latest_backup.json` file as `get_latest_backup_hash` sees
it: absent (first run), unreadable/corrupt (the `except` branch of the
read), or holding a JSON value. -/
inductive LatestFile where
  | absent
  | unreadable
  | content (v : PyVal)

/-- `get_latest_backup_hash`: `None` when the file is absent, when reading
it raises, or when hashing its content fails; otherwise the content's
digest. -/
def get_latest_backup_hash (hashFn : String → String) : LatestFile → Option String
  | LatestFile.absent => none
  | LatestFile.unreadable => none
  | LatestFile.content v => calculate_data_hash hashFn v

/-- `is_data_changed`, lines 276–296: fail-open comparison of the new
payload's digest with the stored latest digest. -/
def is_data_changed (hashFn : String → String) (newData : PyVal)
    (latest : LatestFile) : Bool :=
  match calculate_data_hash hashFn newData with
  | none => true
  | some newHash =>
      match get_latest_backup_hash hashFn latest with
      | none => true
      | some latestHash => if newHash == latestHash then false else true

/-- `int(s)` as applied to `MAX_BACKUPS`: optional sign then digits, with
surrounding whitespace tolerated; `none` models `ValueError`. -/
def pyParseInt (s : String) : Option Int :=
  let toDigits : List Char → Option Nat := fun cs =>
    if cs.isEmpty then none
    else
      cs.foldl (fun acc c =>
        match acc with
        | none => none
        | some n => if c.toNat < 48 || 57 < c.toNat then none
                    else some (n * 10 + (c.toNat - 48))) (some 0)
  let trimmed := (s.data.dropWhile Char.isWhitespace).reverse.dropWhile Char.isWhitespace |>.reverse
  match trimmed with
  | '-' :: rest => (toDigits rest).map (fun n => -(n : Int))
  | '+' :: rest => (toDigits rest).map (fun n => (n : Int))
  | rest => (toDigits rest).map (fun n => (n : Int))

/-- `MAX_BACKUPS` handling in `BackupManager.__init__`, lines 34–40:
`int(max_backups_str) if max_backups_str.strip() else 100`, with
`ValueError` falling back to 100. -/
def parse_max_backups (s : String) : Int :=
  if (s.data.dropWhile Char.isWhitespace).isEmpty then 100
  else
    match pyParseInt s with
    | some n => n
    | none => 100

/-- Descending order on `(path, mtime)` pairs: `sort(key=lambda x: x[1],
reverse=True)`. -/
def mtimeGE (a b : String × Nat) : Prop := b.2 ≤ a.2

instance : DecidableRel mtimeGE :=
  fun a b => inferInstanceAs (Decidable (b.2 ≤ a.2))

instance : IsTotal (String × Nat) mtimeGE :=
  ⟨fun a b => Nat.le_total b.2 a.2⟩

instance : IsTrans (String × Nat) mtimeGE :=
  ⟨fun _ _ _ h₁ h₂ => Nat.le_trans h₂ h₁⟩

/-- The sort performed by `cleanup_old_backups`: most recent first. -/
def sortFiles (files : List (String × Nat)) : List (String × Nat) :=
  List.insertionSort mtimeGE files

/-- `str.startswith(pre)`. -/
def strStartsWith (s pre : String) : Bool :=
  pre.data.isPrefixOf s.data

/-- `str.endswith(suf)`. -/
def strEndsWith (s suf : String) : Bool :=
  suf.data.reverse.isPrefixOf s.data.reverse

/-- The `backup_*.json` filter of the directory listing (line 339), which
also excludes `latest_backup.json`. -/
def snapshotFilesOf (dir : List (String × Nat)) : List (String × Nat) :=
  dir.filter (fun f => strStartsWith f.1 "backup_" && strEndsWith f.1 ".json")

/-- Python `l[k:]` start index (negative indices count from the end). -/
def pySliceStart (k : Int) (len : Nat) : Nat :=
  if 0 ≤ k then k.toNat else ((len : Int) + k).toNat

/-- The files `cleanup_old_backups` iterates over for deletion:
`backup_files[self.max_backups:]` of the mtime-descending sort, guarded by
`len(backup_files) > self.max_backups`. -/
def filesToDelete (maxBackups : Int) (dir : List (String × Nat)) : List (String × Nat) :=
  let snaps := snapshotFilesOf dir
  if maxBackups < (snaps.length : Int) then
    (sortFiles snaps).drop (pySliceStart maxBackups snaps.length)
  else
    []

/-- The `os.remove` loop: `failsAt p = true` means deleting `p` raises.  The
first failure aborts the loop (the exception escapes to the function-level
handler); result is the list of files actually removed plus the escaped
exception, if any. -/
def removeLoop (failsAt : String → Bool) : List String → List String × Option String
  | [] => ([], none)
  | p :: rest =>
      if failsAt p then ([], some p)
      else
        let r := removeLoop failsAt rest
        (p :: r.1, r.2)

/-- `cleanup_old_backups`, lines 333–359: computes the excess files, removes
them one by one; any raised exception is caught by the function-level
`except`, logged, and swallowed.  Returns the removed paths and whether an
error was caught. -/
def cleanup_old_backups (maxBackups : Int) (failsAt : String → Bool)
    (dir : List (String × Nat)) : List String × Bool :=
  let r := removeLoop failsAt ((filesToDelete maxBackups dir).map Prod.fst)
  (r.1, r.2.isSome)

/-- The directory after a `cleanup_old_backups` run: the files whose
deletion succeeded are gone. -/
def dirAfterCleanup (maxBackups : Int) (failsAt : String → Bool)
    (dir : List (String × Nat)) : List (String × Nat) :=
  dir.filter (fun f => !(cleanup_old_backups maxBackups failsAt dir).1.contains f.1)

/-- A deletion world where no `os.remove` raises. -/
def noFailure : String → Bool := fun _ => false

/-! ## `save_backup` -/

/-- The mutable filesystem state `save_backup` acts on: the
`latest_backup.json` pointer and the `backups/` directory listing
(paths with modification times). -/
structure Store where
  latest : LatestFile
  dir : List (String × Nat)

/-- What one `save_backup` call did: wrote a new `backup_*.json`, rewrote
`latest_backup.json`, invoked `cleanup_old_backups`. -/
structure SaveEvents where
  wroteSnapshot : Bool
  updatedLatest : Bool
  pruned : Bool
deriving DecidableEq

/-- `save_backup`, lines 298–331.  `timestamp` is
`datetime.now().strftime('%Y%m%d_%H%M%S')` and `mtime` the new file's
modification time — both supplied by the environment.  When the payload is
unserializable, `json.dump` raises after `open(...)` created the file; the
`except` logs and returns `False`.  Otherwise the snapshot and the latest
pointer are written and `cleanup_old_backups` runs. -/
def save_backup (hashFn : String → String) (enableChangeDetection : Bool)
    (maxBackups : Int) (failsAt : String → Bool) (timestamp : String)
    (mtime : Nat) (data : PyVal) (st : Store) : Bool × Store × SaveEvents :=
  if enableChangeDetection && !(is_data_changed hashFn data st.latest) then
    (true, st, ⟨false, false, false⟩)
  else
    let filename := "backup_" ++ timestamp ++ ".json"
    match serializeVal data with
    | none =>
        (false,
         { st with dir := (filename, mtime) :: st.dir.filter (fun f => !(f.1 == filename)) },
         ⟨false, false, false⟩)
    | some _ =>
        let dir₁ := (filename, mtime) :: st.dir.filter (fun f => !(f.1 == filename))
        (true,
         { latest := LatestFile.content data,
           dir := dirAfterCleanup maxBackups failsAt dir₁ },
         ⟨true, true, true⟩)

/-- Apply `f` to every value of an association list, keeping keys. -/
def mapVals (f : PyVal → PyVal) (l : List (String × PyVal)) : List (String × PyVal) :=
  l.map (fun kv => (kv.1, f kv.2))

/-! ## Theorems -/

/-- C7: `is_data_changed` is fail-open — it answers "changed" whenever the
new payload's digest cannot be computed, whenever `latest_backup.json` is
absent, and whenever reading or fingerprinting the stored latest content
fails; it answers "unchanged" only when both digests exist and coincide. -/
theorem is_data_changed_fail_open (hashFn : String → String) (newData : PyVal)
    (latest : LatestFile) :
    (calculate_data_hash hashFn newData = none →
      is_data_changed hashFn newData latest = true) ∧
    (latest = LatestFile.absent → is_data_changed hashFn newData latest = true) ∧
    (latest = LatestFile.unreadable → is_data_changed hashFn newData latest = true) ∧
    (get_latest_backup_hash hashFn latest = none →
      is_data_changed hashFn newData latest = true) ∧
    (is_data_changed hashFn newData latest = false ↔
      ∃ d, calculate_data_hash hashFn newData = some d ∧
           get_latest_backup_hash hashFn latest = some d) := by
  unfold is_data_changed
  cases hn : calculate_data_hash hashFn newData with
  | none => simp
  | some newHash =>
    cases hl : get_latest_backup_hash hashFn latest with
    | none =>
      refine ⟨by simp, by simp, by simp, by simp, ?_⟩
      simp only [hl]
      constructor
      · intro h; cases h
      · rintro ⟨d, hd, hd'⟩; cases hd'
    | some latestHash =>
      refine ⟨by simp, ?_, ?_, by simp [hl], ?_⟩
      · intro h; subst h; simp [get_latest_backup_hash] at hl
      · intro h; subst h; simp [get_latest_backup_hash] at hl
      · by_cases heq : newHash = latestHash
        · subst heq
          simp [hn, hl]
        · have hb : (newHash == latestHash) = false := beq_eq_false_iff_ne.mpr heq
          simp [hn, hl, hb, heq, Ne.symm heq]

/-- C1: when the metadata query returns HTTP 200 with a body whose
`private` field is `false`, the privacy gate evaluates to Block,
`download_backup` is never invoked, and the process exits non-zero. -/
theorem privacy_gate_blocks_public_repo
    (tok repo : String) (htok : tok.isEmpty = false) (hrepo : repo.isEmpty = false)
    (kvs : List (String × PyVal))
    (hpriv : lookupKey "private" kvs = some (PyVal.bool false))
    (marker mwf downloadOk : Bool) :
    (check_repository_privacy
      ⟨some tok, some repo, GateQueryOutcome.ok (PyVal.obj kvs), marker, mwf⟩).verdict
        = false ∧
    (mainRun ⟨some tok, some repo, GateQueryOutcome.ok (PyVal.obj kvs), marker, mwf⟩
      downloadOk).downloadInvoked = false ∧
    (mainRun ⟨some tok, some repo, GateQueryOutcome.ok (PyVal.obj kvs), marker, mwf⟩
      downloadOk).exitCode ≠ 0 := by
  have hgate : (check_repository_privacy
      ⟨some tok, some repo, GateQueryOutcome.ok (PyVal.obj kvs), marker, mwf⟩).verdict
        = false := by
    simp [check_repository_privacy, strFalsy, htok, hrepo, pyDictGet, hpriv, pyTruthy]
  exact ⟨hgate, by simp [mainRun, hgate], by simp [mainRun, hgate]⟩

/-- Witness for C1 at a concrete input. -/
theorem privacy_gate_blocks_public_repo_witness :
    ("ghp_token" : String).isEmpty = false ∧ ("owner/repo" : String).isEmpty = false ∧
    lookupKey "private" [("private", PyVal.bool false)] = some (PyVal.bool false) ∧
    ((check_repository_privacy
        ⟨some "ghp_token", some "owner/repo",
         GateQueryOutcome.ok (PyVal.obj [("private", PyVal.bool false)]),
         false, false⟩).verdict = false ∧
     (mainRun ⟨some "ghp_token", some "owner/repo",
         GateQueryOutcome.ok (PyVal.obj [("private", PyVal.bool false)]),
         false, false⟩ true).downloadInvoked = false ∧
     (mainRun ⟨some "ghp_token", some "owner/repo",
         GateQueryOutcome.ok (PyVal.obj [("private", PyVal.bool false)]),
         false, false⟩ true).exitCode ≠ 0) := by
  refine ⟨by decide, by decide, by rfl, ?_⟩
  exact privacy_gate_blocks_public_repo "ghp_token" "owner/repo" (by decide) (by decide)
    [("private", PyVal.bool false)] (by rfl) false false true

/-- C2: with `GITHUB_TOKEN` or `GITHUB_REPOSITORY` unset or empty, the gate
blocks without issuing the metadata query, `download_backup` is never
invoked, the process exits non-zero, and a diagnostic line names both
required environment variables. -/
theorem privacy_gate_blocks_missing_credentials
    (inp : GateInput) (downloadOk : Bool)
    (h : strFalsy inp.token = true ∨ strFalsy inp.repository = true) :
    (check_repository_privacy inp).queryIssued = false ∧
    (check_repository_privacy inp).verdict = false ∧
    (mainRun inp downloadOk).downloadInvoked = false ∧
    (mainRun inp downloadOk).exitCode ≠ 0 ∧
    ∃ line ∈ (check_repository_privacy inp).errorLogs,
      "GITHUB_TOKEN".data <:+: line.data ∧ "GITHUB_REPOSITORY".data <:+: line.data := by
  have hcond : (strFalsy inp.token || strFalsy inp.repository) = true := by
    rcases h with h | h <;> simp [h]
  have hgate : check_repository_privacy inp =
      { verdict := false, queryIssued := false, markerWritten := false,
        errorLogs :=
          ["❌ 安全检查失败：缺少GitHub Token或Repository信息",
           "无法验证仓库隐私状态，为了安全起见，备份任务将被终止",
           "环境变量要求：GITHUB_TOKEN 和 GITHUB_REPOSITORY",
           "注意：本程序强制要求使用私有仓库，此检查无法禁用"] } := by
    unfold check_repository_privacy
    rw [if_pos hcond]
  refine ⟨by rw [hgate], by rw [hgate], ?_, ?_, ?_⟩
  · simp [mainRun, hgate]
  · simp [mainRun, hgate]
  · rw [hgate]
    exact ⟨"环境变量要求：GITHUB_TOKEN 和 GITHUB_REPOSITORY",
      by simp, by decide, by decide⟩

/-- Witness for C2: `GITHUB_TOKEN` unset (and the repository id present). -/
theorem privacy_gate_blocks_missing_credentials_witness :
    (strFalsy (none : Option String) = true ∨ strFalsy (some "owner/repo") = true) ∧
    ((check_repository_privacy
        ⟨none, some "owner/repo", GateQueryOutcome.networkError, false, false⟩).queryIssued
          = false ∧
     (check_repository_privacy
        ⟨none, some "owner/repo", GateQueryOutcome.networkError, false, false⟩).verdict
          = false ∧
     (mainRun ⟨none, some "owner/repo", GateQueryOutcome.networkError, false, false⟩
        true).downloadInvoked = false ∧
     (mainRun ⟨none, some "owner/repo", GateQueryOutcome.networkError, false, false⟩
        true).exitCode ≠ 0 ∧
     ∃ line ∈ (check_repository_privacy
        ⟨none, some "owner/repo", GateQueryOutcome.networkError, false, false⟩).errorLogs,
       "GITHUB_TOKEN".data <:+: line.data ∧ "GITHUB_REPOSITORY".data <:+: line.data) :=
  ⟨Or.inl rfl,
   privacy_gate_blocks_missing_credentials
     ⟨none, some "owner/repo", GateQueryOutcome.networkError, false, false⟩ true
     (Or.inl rfl)⟩

/-- C9: on HTTP 200 with a parsed body lacking a `private` key, the lookup
defaults to `False` and the gate blocks. -/
theorem privacy_gate_blocks_missing_private_field
    (tok repo : String) (htok : tok.isEmpty = false) (hrepo : repo.isEmpty = false)
    (kvs : List (String × PyVal)) (hpriv : lookupKey "private" kvs = none)
    (marker mwf : Bool) :
    pyDictGet "private" kvs (PyVal.bool false) = PyVal.bool false ∧
    (check_repository_privacy
      ⟨some tok, some repo, GateQueryOutcome.ok (PyVal.obj kvs), marker, mwf⟩).verdict
        = false := by
  have hget : pyDictGet "private" kvs (PyVal.bool false) = PyVal.bool false := by
    simp [pyDictGet, hpriv]
  refine ⟨hget, ?_⟩
  simp [check_repository_privacy, strFalsy, htok, hrepo, hget, pyTruthy]

/-- Witness for C9 at a concrete input (body `{"name": "x"}`). -/
theorem privacy_gate_blocks_missing_private_field_witness :
    ("ghp_token" : String).isEmpty = false ∧ ("owner/repo" : String).isEmpty = false ∧
    lookupKey "private" [("name", PyVal.str "x")] = none ∧
    (pyDictGet "private" [("name", PyVal.str "x")] (PyVal.bool false) = PyVal.bool false ∧
     (check_repository_privacy
       ⟨some "ghp_token", some "owner/repo",
        GateQueryOutcome.ok (PyVal.obj [("name", PyVal.str "x")]), false, false⟩).verdict
         = false) := by
  refine ⟨by decide, by decide, by rfl, ?_⟩
  exact privacy_gate_blocks_missing_private_field "ghp_token" "owner/repo"
    (by decide) (by decide) [("name", PyVal.str "x")] (by rfl) false false

/-- C3: the gate's verdict does not depend on the `.privacy_verified`
marker — two runs differing only in the marker's existence both issue the
live API query and reach the same verdict; the marker is only ever written,
on a Pass when it does not yet exist. -/
theorem privacy_gate_marker_independent
    (inp : GateInput) (m₁ m₂ : Bool)
    (htok : strFalsy inp.token = false) (hrepo : strFalsy inp.repository = false) :
    (check_repository_privacy { inp with markerExists := m₁ }).verdict =
      (check_repository_privacy { inp with markerExists := m₂ }).verdict ∧
    (check_repository_privacy { inp with markerExists := m₁ }).queryIssued = true ∧
    (check_repository_privacy { inp with markerExists := m₂ }).queryIssued = true ∧
    (∀ m : Bool,
      (check_repository_privacy { inp with markerExists := m }).markerWritten = true →
        (check_repository_privacy { inp with markerExists := m }).verdict = true ∧
        m = false) := by
  obtain ⟨t, r, oc, me, mwf⟩ := inp
  simp only at htok hrepo
  cases oc with
  | notFound => simp [check_repository_privacy, htok, hrepo]
  | httpError code => simp [check_repository_privacy, htok, hrepo]
  | networkError => simp [check_repository_privacy, htok, hrepo]
  | parseError => simp [check_repository_privacy, htok, hrepo]
  | ok body =>
    cases body with
    | obj kvs =>
      by_cases hp : pyTruthy (pyDictGet "private" kvs (PyVal.bool false)) = true
      · simp [check_repository_privacy, htok, hrepo, hp]
      · simp [check_repository_privacy, htok, hrepo,
          Bool.not_eq_true _ ▸ hp]
    | null => simp [check_repository_privacy, htok, hrepo]
    | bool b => simp [check_repository_privacy, htok, hrepo]
    | int n => simp [check_repository_privacy, htok, hrepo]
    | str s => simp [check_repository_privacy, htok, hrepo]
    | arr xs => simp [check_repository_privacy, htok, hrepo]
    | other tag => simp [check_repository_privacy, htok, hrepo]

/-- Witness for C3 at a concrete input (private repository, marker initially
absent in one run and present in the other). -/
theorem privacy_gate_marker_independent_witness :
    strFalsy (some "ghp_token") = false ∧ strFalsy (some "owner/repo") = false ∧
    ((check_repository_privacy
        ⟨some "ghp_token", some "owner/repo",
         GateQueryOutcome.ok (PyVal.obj [("private", PyVal.bool true)]), false, false⟩).verdict =
      (check_repository_privacy
        ⟨some "ghp_token", some "owner/repo",
         GateQueryOutcome.ok (PyVal.obj [("private", PyVal.bool true)]), true, false⟩).verdict ∧
     (check_repository_privacy
        ⟨some "ghp_token", some "owner/repo",
         GateQueryOutcome.ok (PyVal.obj [("private", PyVal.bool true)]), false, false⟩).queryIssued
           = true ∧
     (check_repository_privacy
        ⟨some "ghp_token", some "owner/repo",
         GateQueryOutcome.ok (PyVal.obj [("private", PyVal.bool true)]), true, false⟩).queryIssued
           = true ∧
     (∀ m : Bool,
       (check_repository_privacy
         ⟨some "ghp_token", some "owner/repo",
          GateQueryOutcome.ok (PyVal.obj [("private", PyVal.bool true)]), m, false⟩).markerWritten
            = true →
         (check_repository_privacy
           ⟨some "ghp_token", some "owner/repo",
            GateQueryOutcome.ok (PyVal.obj [("private", PyVal.bool true)]), m, false⟩).verdict
              = true ∧
         m = false)) := by
  refine ⟨by decide, by decide, ?_⟩
  exact privacy_gate_marker_independent
    ⟨some "ghp_token", some "owner/repo",
     GateQueryOutcome.ok (PyVal.obj [("private", PyVal.bool true)]), false, false⟩
    false true (by decide) (by decide)

theorem normalizeList_eq_map (xs : List PyVal) :
    normalizeList xs = xs.map normalizeVal := by
  induction xs with
  | nil => rfl
  | cons v vs ih => simp [normalizeList, ih]

theorem normalizePairs_eq_mapVals (l : List (String × PyVal)) :
    normalizePairs l = mapVals normalizeVal l := by
  induction l with
  | nil => rfl
  | cons kv l ih =>
    obtain ⟨k, v⟩ := kv
    simp [normalizePairs, mapVals, ih]

theorem orderedInsert_mapVals (f : PyVal → PyVal) (a : String × PyVal)
    (l : List (String × PyVal)) :
    List.orderedInsert pairLE (a.1, f a.2) (mapVals f l) =
      mapVals f (List.orderedInsert pairLE a l) := by
  induction l with
  | nil => rfl
  | cons b l ih =>
    simp only [mapVals, List.map] at ih ⊢
    simp only [List.orderedInsert]
    by_cases h : pairLE a b
    · have h' : pairLE (a.1, f a.2) (b.1, f b.2) := h
      rw [if_pos h', if_pos h]
      simp
    · have h' : ¬pairLE (a.1, f a.2) (b.1, f b.2) := h
      rw [if_neg h', if_neg h, List.map_cons, ih]

theorem sortPairs_mapVals (f : PyVal → PyVal) (l : List (String × PyVal)) :
    sortPairs (mapVals f l) = mapVals f (sortPairs l) := by
  induction l with
  | nil => rfl
  | cons a l ih =>
    simp only [sortPairs, mapVals, List.map, List.insertionSort] at ih ⊢
    rw [ih]
    have h := orderedInsert_mapVals f a (List.insertionSort pairLE l)
    simp only [mapVals] at h
    exact h

theorem sortPairs_idem (l : List (String × PyVal)) :
    sortPairs (sortPairs l) = sortPairs l :=
  List.Sorted.insertionSort_eq (List.sorted_insertionSort pairLE l)

theorem serializeItems_map_normalize (xs : List PyVal)
    (h : ∀ v ∈ xs, serializeVal (normalizeVal v) = serializeVal v) :
    serializeItems (xs.map normalizeVal) = serializeItems xs := by
  induction xs with
  | nil => rfl
  | cons v vs ih =>
    have hv := h v (by simp)
    have hrest := ih (fun w hw => h w (by simp [hw]))
    simp only [List.map, serializeItems]
    rw [hv, hrest]

theorem serializePairs_mapVals_normalize (l : List (String × PyVal))
    (h : ∀ kv ∈ l, serializeVal (normalizeVal kv.2) = serializeVal kv.2) :
    serializePairs (mapVals normalizeVal l) = serializePairs l := by
  induction l with
  | nil => rfl
  | cons kv l ih =>
    obtain ⟨k, v⟩ := kv
    have hv := h (k, v) (by simp)
    have hrest := ih (fun kv hkv => h kv (by simp [hkv]))
    simp only [mapVals, List.map, serializePairs] at hrest ⊢
    rw [hv, hrest]

theorem serializeVal_normalize_bounded :
    ∀ (n : Nat) (v : PyVal), sizeOf v ≤ n →
      serializeVal (normalizeVal v) = serializeVal v := by
  intro n
  induction n with
  | zero =>
    intro v hv
    exfalso
    cases v <;> simp at hv
  | succ n ih =>
    intro v hv
    cases v with
    | null => rfl
    | bool b => cases b <;> rfl
    | int m => rfl
    | str s => rfl
    | other t => rfl
    | arr xs =>
      have hx : ∀ w ∈ xs, serializeVal (normalizeVal w) = serializeVal w := by
        intro w hw
        apply ih
        have h1 := List.sizeOf_lt_of_mem hw
        have h2 : sizeOf (PyVal.arr xs) = 1 + sizeOf xs := by simp
        omega
      simp only [normalizeVal, serializeVal, normalizeList_eq_map]
      rw [serializeItems_map_normalize xs hx]
    | obj kvs =>
      have hk : ∀ kv ∈ sortPairs kvs,
          serializeVal (normalizeVal kv.2) = serializeVal kv.2 := by
        intro kv hkv
        apply ih
        have hmem : kv ∈ kvs := ((List.perm_insertionSort pairLE kvs).mem_iff).mp hkv
        have h1 := List.sizeOf_lt_of_mem hmem
        have h2 : sizeOf (PyVal.obj kvs) = 1 + sizeOf kvs := by simp
        have h3 : sizeOf kv.2 < sizeOf kv := by
          obtain ⟨a, b⟩ := kv
          simp
        omega
      simp only [normalizeVal, serializeVal, normalizePairs_eq_mapVals]
      rw [sortPairs_mapVals, sortPairs_mapVals, sortPairs_idem,
        serializePairs_mapVals_normalize _ hk]

theorem serializeVal_normalize_eq (v : PyVal) :
    serializeVal (normalizeVal v) = serializeVal v :=
  serializeVal_normalize_bounded (sizeOf v) v le_rfl

/-- C6: `calculate_data_hash` is invariant under mapping key order — any two
values with the same canonical form (equal up to the ordering of dictionary
keys at any depth) get the same digest. -/
theorem calculate_data_hash_key_order_invariant (hashFn : String → String)
    (v w : PyVal) (h : normalizeVal v = normalizeVal w) :
    calculate_data_hash hashFn v = calculate_data_hash hashFn w := by
  unfold calculate_data_hash
  rw [← serializeVal_normalize_eq v, ← serializeVal_normalize_eq w, h]

/-- Witness for C6: `fingerprint({"a":1,"b":2}) == fingerprint({"b":2,"a":1})`. -/
theorem calculate_data_hash_key_order_invariant_witness :
    normalizeVal (PyVal.obj [("a", PyVal.int 1), ("b", PyVal.int 2)]) =
      normalizeVal (PyVal.obj [("b", PyVal.int 2), ("a", PyVal.int 1)]) ∧
    calculate_data_hash (fun s => s) (PyVal.obj [("a", PyVal.int 1), ("b", PyVal.int 2)]) =
      calculate_data_hash (fun s => s) (PyVal.obj [("b", PyVal.int 2), ("a", PyVal.int 1)]) :=
  ⟨by rfl, calculate_data_hash_key_order_invariant (fun s => s) _ _ (by rfl)⟩

theorem removeLoop_noFailure (l : List String) : removeLoop noFailure l = (l, none) := by
  induction l with
  | nil => rfl
  | cons p rest ih => simp [removeLoop, noFailure, ih]

theorem removeLoop_fst (failsAt : String → Bool) (l : List String) :
    (removeLoop failsAt l).1 = l.takeWhile (fun p => !failsAt p) := by
  induction l with
  | nil => rfl
  | cons p rest ih =>
    by_cases h : failsAt p = true
    · simp [removeLoop, h]
    · simp only [Bool.not_eq_true] at h
      simp [removeLoop, h, ih]

theorem removeLoop_snd (failsAt : String → Bool) (l : List String) :
    ((removeLoop failsAt l).2.isSome = true) ↔ ∃ p ∈ l, failsAt p = true := by
  induction l with
  | nil => simp [removeLoop]
  | cons p rest ih =>
    by_cases h : failsAt p = true
    · simp [removeLoop, h]
    · simp only [Bool.not_eq_true] at h
      simp [removeLoop, h, ih]

theorem cleanup_noFailure (maxBackups : Int) (dir : List (String × Nat)) :
    cleanup_old_backups maxBackups noFailure dir =
      ((filesToDelete maxBackups dir).map Prod.fst, false) := by
  unfold cleanup_old_backups
  rw [removeLoop_noFailure]
  rfl

theorem sortFiles_perm (files : List (String × Nat)) : (sortFiles files).Perm files :=
  List.perm_insertionSort mtimeGE files

theorem sortFiles_sorted (files : List (String × Nat)) :
    List.Sorted mtimeGE (sortFiles files) :=
  List.sorted_insertionSort mtimeGE files

theorem snapshotFilesOf_filter (p : (String × Nat) → Bool) (dir : List (String × Nat)) :
    snapshotFilesOf (dir.filter p) = (snapshotFilesOf dir).filter p := by
  unfold snapshotFilesOf
  rw [List.filter_filter, List.filter_filter]
  exact List.filter_congr (fun a _ => by rw [Bool.and_comm])

theorem filter_not_contains_drop_perm (s : List (String × Nat)) (n : Nat)
    (l : List (String × Nat)) (hperm : l.Perm s)
    (hnodup : (s.map Prod.fst).Nodup) :
    (l.filter (fun f => !((s.drop n).map Prod.fst).contains f.1)).Perm (s.take n) := by
  have hsplit : s.take n ++ s.drop n = s := List.take_append_drop n s
  have hnodup' : (List.take n (s.map Prod.fst) ++ List.drop n (s.map Prod.fst)).Nodup := by
    rw [List.take_append_drop]; exact hnodup
  have hdisj := (List.nodup_append.mp hnodup').2.2
  have htake : (s.take n).filter
      (fun f => !((s.drop n).map Prod.fst).contains f.1) = s.take n := by
    apply List.filter_eq_self.mpr
    intro a ha
    have h0 : a.1 ∈ (s.take n).map Prod.fst := List.mem_map_of_mem Prod.fst ha
    have h1 : a.1 ∈ List.take n (s.map Prod.fst) := by simpa using h0
    have h2 : a.1 ∉ List.drop n (s.map Prod.fst) := fun hd => hdisj h1 hd
    simp [h2]
  have hdrop : (s.drop n).filter
      (fun f => !((s.drop n).map Prod.fst).contains f.1) = [] := by
    apply List.filter_eq_nil_iff.mpr
    intro a ha
    have h0 : a.1 ∈ (s.drop n).map Prod.fst := List.mem_map_of_mem Prod.fst ha
    simpa using h0
  have hgen : ∀ (q : (String × Nat) → Bool),
      List.filter q (s.take n) = s.take n → List.filter q (s.drop n) = [] →
      List.filter q s = s.take n := by
    intro q hq1 hq2
    conv_lhs => rw [← hsplit]
    rw [List.filter_append, hq1, hq2, List.append_nil]
  have heq := hgen _ htake hdrop
  exact heq ▸ hperm.filter _

theorem cleanup_noFailure_fst (maxBackups : Int) (dir : List (String × Nat)) :
    (cleanup_old_backups maxBackups noFailure dir).1 =
      (filesToDelete maxBackups dir).map Prod.fst := by
  rw [cleanup_noFailure]

theorem snapshots_after_cleanup_perm (maxBackups : Int) (dir : List (String × Nat))
    (hpaths : ((snapshotFilesOf dir).map Prod.fst).Nodup) :
    (snapshotFilesOf (dirAfterCleanup maxBackups noFailure dir)).Perm
      ((sortFiles (snapshotFilesOf dir)).take
        (pySliceStart maxBackups (snapshotFilesOf dir).length)) := by
  unfold dirAfterCleanup
  rw [cleanup_noFailure_fst]
  by_cases hcond : maxBackups < ((snapshotFilesOf dir).length : Int)
  · have hdel : filesToDelete maxBackups dir =
        (sortFiles (snapshotFilesOf dir)).drop
          (pySliceStart maxBackups (snapshotFilesOf dir).length) := by
      unfold filesToDelete
      rw [if_pos hcond]
    rw [hdel, snapshotFilesOf_filter]
    exact filter_not_contains_drop_perm _ _ _
      (sortFiles_perm (snapshotFilesOf dir)).symm
      (((sortFiles_perm (snapshotFilesOf dir)).map Prod.fst).nodup_iff.mpr hpaths)
  · have hdel : filesToDelete maxBackups dir = [] := by
      unfold filesToDelete
      rw [if_neg hcond]
    rw [hdel]
    have hfilter : dir.filter
        (fun f => !((([] : List (String × Nat)).map Prod.fst).contains f.1)) = dir := by
      simp
    rw [hfilter]
    have hlen : (sortFiles (snapshotFilesOf dir)).length = (snapshotFilesOf dir).length :=
      (sortFiles_perm _).length_eq
    have hn : (sortFiles (snapshotFilesOf dir)).length ≤
        pySliceStart maxBackups (snapshotFilesOf dir).length := by
      unfold pySliceStart
      rw [if_pos (by omega)]
      omega
    rw [List.take_of_length_le hn]
    exact (sortFiles_perm _).symm

theorem sorted_take_drop_lt (s : List (String × Nat))
    (hsort : List.Sorted mtimeGE s) (hmt : (s.map Prod.snd).Nodup) (n : Nat) :
    ∀ a ∈ s.take n, ∀ b ∈ s.drop n, b.2 < a.2 := by
  have hsplit : s.take n ++ s.drop n = s := List.take_append_drop n s
  have hsp : List.Pairwise mtimeGE (s.take n ++ s.drop n) := by
    rw [hsplit]; exact hsort
  have hge := (List.pairwise_append.mp hsp).2.2
  have hnodup' : (List.take n (s.map Prod.snd) ++ List.drop n (s.map Prod.snd)).Nodup := by
    rw [List.take_append_drop]; exact hmt
  have hdisj := (List.nodup_append.mp hnodup').2.2
  intro a ha b hb
  have hle : b.2 ≤ a.2 := hge a ha b hb
  have hne : b.2 ≠ a.2 := by
    intro he
    have h1 : a.2 ∈ List.take n (s.map Prod.snd) := by
      simpa using List.mem_map_of_mem Prod.snd ha
    have h2 : b.2 ∈ List.drop n (s.map Prod.snd) := by
      simpa using List.mem_map_of_mem Prod.snd hb
    exact hdisj h1 (he ▸ h2)
  exact lt_of_le_of_ne hle hne

theorem cleanup_retained_more_recent (maxBackups : Int) (dir : List (String × Nat))
    (hpaths : ((snapshotFilesOf dir).map Prod.fst).Nodup)
    (hmt : ((snapshotFilesOf dir).map Prod.snd).Nodup) :
    ∀ f ∈ snapshotFilesOf (dirAfterCleanup maxBackups noFailure dir),
    ∀ g ∈ snapshotFilesOf dir,
      g ∉ snapshotFilesOf (dirAfterCleanup maxBackups noFailure dir) → g.2 < f.2 := by
  intro f hf g hg hgn
  have hperm := snapshots_after_cleanup_perm maxBackups dir hpaths
  have hf' : f ∈ (sortFiles (snapshotFilesOf dir)).take
      (pySliceStart maxBackups (snapshotFilesOf dir).length) := hperm.mem_iff.mp hf
  have hg' : g ∈ sortFiles (snapshotFilesOf dir) :=
    (sortFiles_perm (snapshotFilesOf dir)).mem_iff.mpr hg
  have hgn' : g ∉ (sortFiles (snapshotFilesOf dir)).take
      (pySliceStart maxBackups (snapshotFilesOf dir).length) :=
    fun h => hgn (hperm.mem_iff.mpr h)
  have hgd : g ∈ (sortFiles (snapshotFilesOf dir)).drop
      (pySliceStart maxBackups (snapshotFilesOf dir).length) := by
    rw [← List.take_append_drop
      (pySliceStart maxBackups (snapshotFilesOf dir).length)
      (sortFiles (snapshotFilesOf dir))] at hg'
    rcases List.mem_append.mp hg' with h | h
    · exact absurd h hgn'
    · exact h
  exact sorted_take_drop_lt _ (sortFiles_sorted (snapshotFilesOf dir))
    (((sortFiles_perm (snapshotFilesOf dir)).map Prod.snd).nodup_iff.mpr hmt)
    _ f hf' g hgd

/-- C4: retention invariant of `cleanup_old_backups` for a non-negative
retention limit and distinct modification times — at most `maxBackups`
snapshot files remain, the survivors are exactly the `maxBackups` most
recently modified, and nothing is deleted when the limit is not exceeded. -/
theorem cleanup_retention_invariant
    (maxBackups : Int) (dir : List (String × Nat))
    (hmax : 0 ≤ maxBackups)
    (hpaths : ((snapshotFilesOf dir).map Prod.fst).Nodup)
    (hmt : ((snapshotFilesOf dir).map Prod.snd).Nodup) :
    ((snapshotFilesOf (dirAfterCleanup maxBackups noFailure dir)).length : Int)
      ≤ maxBackups ∧
    (snapshotFilesOf (dirAfterCleanup maxBackups noFailure dir)).Perm
      ((sortFiles (snapshotFilesOf dir)).take maxBackups.toNat) ∧
    (∀ f ∈ snapshotFilesOf (dirAfterCleanup maxBackups noFailure dir),
     ∀ g ∈ snapshotFilesOf dir,
       g ∉ snapshotFilesOf (dirAfterCleanup maxBackups noFailure dir) → g.2 < f.2) ∧
    (((snapshotFilesOf dir).length : Int) ≤ maxBackups →
      dirAfterCleanup maxBackups noFailure dir = dir) := by
  have hslice : pySliceStart maxBackups (snapshotFilesOf dir).length
      = maxBackups.toNat := by
    unfold pySliceStart
    rw [if_pos hmax]
  have hperm := snapshots_after_cleanup_perm maxBackups dir hpaths
  rw [hslice] at hperm
  refine ⟨?_, hperm, cleanup_retained_more_recent maxBackups dir hpaths hmt, ?_⟩
  · have hlen := hperm.length_eq
    rw [List.length_take] at hlen
    omega
  · intro hle
    have hdel : filesToDelete maxBackups dir = [] := by
      unfold filesToDelete
      rw [if_neg (by omega)]
    unfold dirAfterCleanup
    rw [cleanup_noFailure_fst, hdel]
    simp

/-- Witness for C4 with limit 2 and three snapshot files. -/
theorem cleanup_retention_invariant_witness :
    (0 : Int) ≤ 2 ∧
    ((snapshotFilesOf
        [("backup_3.json", 3), ("backup_1.json", 1), ("backup_2.json", 2)]).map
        Prod.fst).Nodup ∧
    ((snapshotFilesOf
        [("backup_3.json", 3), ("backup_1.json", 1), ("backup_2.json", 2)]).map
        Prod.snd).Nodup ∧
    (((snapshotFilesOf (dirAfterCleanup 2 noFailure
        [("backup_3.json", 3), ("backup_1.json", 1), ("backup_2.json", 2)])).length : Int)
      ≤ 2 ∧
     (snapshotFilesOf (dirAfterCleanup 2 noFailure
        [("backup_3.json", 3), ("backup_1.json", 1), ("backup_2.json", 2)])).Perm
       ((sortFiles (snapshotFilesOf
          [("backup_3.json", 3), ("backup_1.json", 1), ("backup_2.json", 2)])).take
          (2 : Int).toNat) ∧
     (∀ f ∈ snapshotFilesOf (dirAfterCleanup 2 noFailure
        [("backup_3.json", 3), ("backup_1.json", 1), ("backup_2.json", 2)]),
      ∀ g ∈ snapshotFilesOf
        [("backup_3.json", 3), ("backup_1.json", 1), ("backup_2.json", 2)],
        g ∉ snapshotFilesOf (dirAfterCleanup 2 noFailure
          [("backup_3.json", 3), ("backup_1.json", 1), ("backup_2.json", 2)]) →
          g.2 < f.2) ∧
     (((snapshotFilesOf
        [("backup_3.json", 3), ("backup_1.json", 1), ("backup_2.json", 2)]).length : Int)
        ≤ 2 →
       dirAfterCleanup 2 noFailure
        [("backup_3.json", 3), ("backup_1.json", 1), ("backup_2.json", 2)]
        = [("backup_3.json", 3), ("backup_1.json", 1), ("backup_2.json", 2)])) := by
  refine ⟨by decide, by decide, by decide, ?_⟩
  exact cleanup_retention_invariant 2
    [("backup_3.json", 3), ("backup_1.json", 1), ("backup_2.json", 2)]
    (by decide) (by decide) (by decide)

/-- C10: `MAX_BACKUPS="-3"` is accepted as `-3` (no fallback to 100); the
count comparison of `cleanup_old_backups` is then true for every list
length, and each run deletes the `min 3` oldest snapshot files — all of
them when fewer than three exist: every deleted file is older than every
retained one, and the retained set is everything but the three oldest. -/
theorem negative_max_backups_deletes_oldest
    (dir : List (String × Nat))
    (hpaths : ((snapshotFilesOf dir).map Prod.fst).Nodup)
    (hmt : ((snapshotFilesOf dir).map Prod.snd).Nodup) :
    parse_max_backups "-3" = -3 ∧
    (-3 : Int) < ((snapshotFilesOf dir).length : Int) ∧
    (cleanup_old_backups (-3) noFailure dir).1.length
      = min 3 (snapshotFilesOf dir).length ∧
    (snapshotFilesOf (dirAfterCleanup (-3) noFailure dir)).Perm
      ((sortFiles (snapshotFilesOf dir)).take ((snapshotFilesOf dir).length - 3)) ∧
    ((snapshotFilesOf dir).length ≤ 3 →
      snapshotFilesOf (dirAfterCleanup (-3) noFailure dir) = []) ∧
    (∀ f ∈ snapshotFilesOf (dirAfterCleanup (-3) noFailure dir),
     ∀ g ∈ snapshotFilesOf dir,
       g ∉ snapshotFilesOf (dirAfterCleanup (-3) noFailure dir) → g.2 < f.2) := by
  have hparse : parse_max_backups "-3" = -3 := by rfl
  have hcond : (-3 : Int) < ((snapshotFilesOf dir).length : Int) := by omega
  have hslice : pySliceStart (-3) (snapshotFilesOf dir).length
      = (snapshotFilesOf dir).length - 3 := by
    unfold pySliceStart
    rw [if_neg (by omega)]
    omega
  have hperm := snapshots_after_cleanup_perm (-3) dir hpaths
  rw [hslice] at hperm
  have hdel : filesToDelete (-3) dir =
      (sortFiles (snapshotFilesOf dir)).drop ((snapshotFilesOf dir).length - 3) := by
    unfold filesToDelete
    rw [if_pos hcond, hslice]
  have hdlen : (cleanup_old_backups (-3) noFailure dir).1.length
      = min 3 (snapshotFilesOf dir).length := by
    rw [cleanup_noFailure_fst, hdel, List.length_map, List.length_drop]
    have hsl : (sortFiles (snapshotFilesOf dir)).length
        = (snapshotFilesOf dir).length := (sortFiles_perm _).length_eq
    omega
  refine ⟨hparse, hcond, hdlen, hperm, ?_,
    cleanup_retained_more_recent (-3) dir hpaths hmt⟩
  intro hle
  have hp := hperm
  have h0 : (snapshotFilesOf dir).length - 3 = 0 := by omega
  rw [h0, List.take_zero] at hp
  exact hp.eq_nil

/-- Witness for C10 with two snapshot files (fewer than three: all deleted). -/
theorem negative_max_backups_deletes_oldest_witness :
    ((snapshotFilesOf [("backup_1.json", 1), ("backup_2.json", 2)]).map Prod.fst).Nodup ∧
    ((snapshotFilesOf [("backup_1.json", 1), ("backup_2.json", 2)]).map Prod.snd).Nodup ∧
    (parse_max_backups "-3" = -3 ∧
     (-3 : Int) <
       ((snapshotFilesOf [("backup_1.json", 1), ("backup_2.json", 2)]).length : Int) ∧
     (cleanup_old_backups (-3) noFailure
        [("backup_1.json", 1), ("backup_2.json", 2)]).1.length
       = min 3 (snapshotFilesOf [("backup_1.json", 1), ("backup_2.json", 2)]).length ∧
     (snapshotFilesOf (dirAfterCleanup (-3) noFailure
        [("backup_1.json", 1), ("backup_2.json", 2)])).Perm
       ((sortFiles (snapshotFilesOf [("backup_1.json", 1), ("backup_2.json", 2)])).take
         ((snapshotFilesOf [("backup_1.json", 1), ("backup_2.json", 2)]).length - 3)) ∧
     ((snapshotFilesOf [("backup_1.json", 1), ("backup_2.json", 2)]).length ≤ 3 →
       snapshotFilesOf (dirAfterCleanup (-3) noFailure
         [("backup_1.json", 1), ("backup_2.json", 2)]) = []) ∧
     (∀ f ∈ snapshotFilesOf (dirAfterCleanup (-3) noFailure
        [("backup_1.json", 1), ("backup_2.json", 2)]),
      ∀ g ∈ snapshotFilesOf [("backup_1.json", 1), ("backup_2.json", 2)],
        g ∉ snapshotFilesOf (dirAfterCleanup (-3) noFailure
          [("backup_1.json", 1), ("backup_2.json", 2)]) → g.2 < f.2)) := by
  refine ⟨by decide, by decide, ?_⟩
  exact negative_max_backups_deletes_oldest
    [("backup_1.json", 1), ("backup_2.json", 2)] (by decide) (by decide)

/-- C8 counterexample: with retention limit 1, three snapshots and the
deletion of `backup_b.json` raising, `backup_c.json` — which lies beyond the
retention limit and whose own deletion would succeed — is nevertheless not
deleted: the first failure aborts the loop, refuting per-file best-effort
continuation. -/
theorem cleanup_abort_counterexample :
    "backup_c.json" ∈ (filesToDelete 1
      [("backup_a.json", 30), ("backup_b.json", 20), ("backup_c.json", 10)]).map
        Prod.fst ∧
    (fun p => p == "backup_b.json") "backup_c.json" = false ∧
    "backup_c.json" ∉ (cleanup_old_backups 1 (fun p => p == "backup_b.json")
      [("backup_a.json", 30), ("backup_b.json", 20), ("backup_c.json", 10)]).1 ∧
    ("backup_c.json", 10) ∈ dirAfterCleanup 1 (fun p => p == "backup_b.json")
      [("backup_a.json", 30), ("backup_b.json", 20), ("backup_c.json", 10)] := by
  decide

/-- C8 (amended): during pruning, the `os.remove` loop deletes files in
order until the first failure; a failure aborts the deletion of the
remaining files in that run (they are retried only on a later run), but the
exception is caught inside `cleanup_old_backups` — the function returns
normally, merely recording that an error was logged, exactly when some
deletion failed. -/
theorem cleanup_deletion_stops_at_first_failure
    (maxBackups : Int) (failsAt : String → Bool) (dir : List (String × Nat)) :
    (cleanup_old_backups maxBackups failsAt dir).1 =
      ((filesToDelete maxBackups dir).map Prod.fst).takeWhile (fun p => !failsAt p) ∧
    ((cleanup_old_backups maxBackups failsAt dir).2 = true ↔
      ∃ p ∈ (filesToDelete maxBackups dir).map Prod.fst, failsAt p = true) := by
  constructor
  · show (removeLoop failsAt ((filesToDelete maxBackups dir).map Prod.fst)).1 = _
    exact removeLoop_fst _ _
  · show (removeLoop failsAt ((filesToDelete maxBackups dir).map Prod.fst)).2.isSome
        = true ↔ _
    exact removeLoop_snd _ _

/-- C5: with change detection enabled, saving the same (serializable)
payload twice creates exactly one snapshot: the second call finds equal
digests, writes no snapshot, does not touch `latest_backup.json`, performs
no pruning, leaves the store unchanged — and still returns success. -/
theorem save_backup_idempotent_on_unchanged
    (hashFn : String → String) (maxBackups : Int)
    (ts₁ ts₂ : String) (mt₁ mt₂ : Nat) (data : PyVal) (st₀ : Store)
    (hser : (serializeVal data).isSome = true)
    (hchanged : is_data_changed hashFn data st₀.latest = true)
    (hfresh : ∀ f ∈ st₀.dir, ¬f.1 = "backup_" ++ ts₁ ++ ".json")
    (hpat : (strStartsWith ("backup_" ++ ts₁ ++ ".json") "backup_" &&
             strEndsWith ("backup_" ++ ts₁ ++ ".json") ".json") = true)
    (hroom : ((snapshotFilesOf st₀.dir).length : Int) + 1 ≤ maxBackups) :
    (save_backup hashFn true maxBackups noFailure ts₂ mt₂ data
      (save_backup hashFn true maxBackups noFailure ts₁ mt₁ data st₀).2.1).1 = true ∧
    (save_backup hashFn true maxBackups noFailure ts₂ mt₂ data
      (save_backup hashFn true maxBackups noFailure ts₁ mt₁ data st₀).2.1).2.2
      = ⟨false, false, false⟩ ∧
    (save_backup hashFn true maxBackups noFailure ts₂ mt₂ data
      (save_backup hashFn true maxBackups noFailure ts₁ mt₁ data st₀).2.1).2.1
      = (save_backup hashFn true maxBackups noFailure ts₁ mt₁ data st₀).2.1 ∧
    is_data_changed hashFn data
      (save_backup hashFn true maxBackups noFailure ts₁ mt₁ data st₀).2.1.latest
      = false ∧
    (snapshotFilesOf
      (save_backup hashFn true maxBackups noFailure ts₂ mt₂ data
        (save_backup hashFn true maxBackups noFailure ts₁ mt₁ data
          st₀).2.1).2.1.dir).length
      = (snapshotFilesOf st₀.dir).length + 1 := by
  obtain ⟨sd, hs⟩ := Option.isSome_iff_exists.mp hser
  have hfilter : st₀.dir.filter (fun f => !(f.1 == "backup_" ++ ts₁ ++ ".json"))
      = st₀.dir := by
    apply List.filter_eq_self.mpr
    intro f hf
    simp [hfresh f hf]
  have hsnap₁ : snapshotFilesOf (("backup_" ++ ts₁ ++ ".json", mt₁) :: st₀.dir) =
      ("backup_" ++ ts₁ ++ ".json", mt₁) :: snapshotFilesOf st₀.dir := by
    unfold snapshotFilesOf
    rw [List.filter_cons_of_pos]
    exact hpat
  have hnodel : filesToDelete maxBackups
      (("backup_" ++ ts₁ ++ ".json", mt₁) :: st₀.dir) = [] := by
    simp only [filesToDelete, hsnap₁, List.length_cons]
    rw [if_neg (by omega)]
  have hclean : dirAfterCleanup maxBackups noFailure
      (("backup_" ++ ts₁ ++ ".json", mt₁) :: st₀.dir)
      = ("backup_" ++ ts₁ ++ ".json", mt₁) :: st₀.dir := by
    unfold dirAfterCleanup
    rw [cleanup_noFailure_fst, hnodel]
    simp
  have hsave₁ : save_backup hashFn true maxBackups noFailure ts₁ mt₁ data st₀ =
      (true,
       { latest := LatestFile.content data,
         dir := ("backup_" ++ ts₁ ++ ".json", mt₁) :: st₀.dir },
       ⟨true, true, true⟩) := by
    unfold save_backup
    rw [hchanged]
    simp only [Bool.not_true, Bool.and_false, Bool.false_eq_true, if_false, hs, hfilter,
      hclean]
  have hunch : is_data_changed hashFn data (LatestFile.content data) = false := by
    unfold is_data_changed get_latest_backup_hash
    simp [calculate_data_hash, hs]
  have hst₁ : (save_backup hashFn true maxBackups noFailure ts₁ mt₁ data st₀).2.1 =
      { latest := LatestFile.content data,
        dir := ("backup_" ++ ts₁ ++ ".json", mt₁) :: st₀.dir } := by
    rw [hsave₁]
  have hsave₂ : save_backup hashFn true maxBackups noFailure ts₂ mt₂ data
      ({ latest := LatestFile.content data,
         dir := ("backup_" ++ ts₁ ++ ".json", mt₁) :: st₀.dir } : Store) =
      (true,
       { latest := LatestFile.content data,
         dir := ("backup_" ++ ts₁ ++ ".json", mt₁) :: st₀.dir },
       ⟨false, false, false⟩) := by
    unfold save_backup
    simp only [hunch, Bool.not_false, Bool.and_true, if_true]
  refine ⟨?_, ?_, ?_, ?_, ?_⟩
  · rw [hst₁, hsave₂]
  · rw [hst₁, hsave₂]
  · rw [hst₁, hsave₂]
  · rw [hst₁]
    exact hunch
  · rw [hst₁, hsave₂]
    simp only [hsnap₁, List.length_cons]

/-- Witness for C5: first-ever run (`latest_backup.json` absent, empty
directory) followed by a second run with the identical payload. -/
theorem save_backup_idempotent_on_unchanged_witness :
    (serializeVal (PyVal.obj [("x", PyVal.int 1)])).isSome = true ∧
    is_data_changed (fun s => s) (PyVal.obj [("x", PyVal.int 1)])
      (⟨LatestFile.absent, []⟩ : Store).latest = true ∧
    (∀ f ∈ (⟨LatestFile.absent, []⟩ : Store).dir,
      ¬f.1 = "backup_" ++ "20240101_000000" ++ ".json") ∧
    (strStartsWith ("backup_" ++ "20240101_000000" ++ ".json") "backup_" &&
     strEndsWith ("backup_" ++ "20240101_000000" ++ ".json") ".json") = true ∧
    ((snapshotFilesOf (⟨LatestFile.absent, []⟩ : Store).dir).length : Int) + 1 ≤ 100 ∧
    ((save_backup (fun s => s) true 100 noFailure "20240102_000000" 2 (PyVal.obj [("x", PyVal.int 1)]) (save_backup (fun s => s) true 100 noFailure "20240101_000000" 1 (PyVal.obj [("x", PyVal.int 1)]) ⟨LatestFile.absent, []⟩).2.1).1 = true ∧
     (save_backup (fun s => s) true 100 noFailure "20240102_000000" 2 (PyVal.obj [("x", PyVal.int 1)]) (save_backup (fun s => s) true 100 noFailure "20240101_000000" 1 (PyVal.obj [("x", PyVal.int 1)]) ⟨LatestFile.absent, []⟩).2.1).2.2 = ⟨false, false, false⟩ ∧
     (save_backup (fun s => s) true 100 noFailure "20240102_000000" 2 (PyVal.obj [("x", PyVal.int 1)]) (save_backup (fun s => s) true 100 noFailure "20240101_000000" 1 (PyVal.obj [("x", PyVal.int 1)]) ⟨LatestFile.absent, []⟩).2.1).2.1 = (save_backup (fun s => s) true 100 noFailure "20240101_000000" 1 (PyVal.obj [("x", PyVal.int 1)]) ⟨LatestFile.absent, []⟩).2.1 ∧
     is_data_changed (fun s => s) (PyVal.obj [("x", PyVal.int 1)])
       (save_backup (fun s => s) true 100 noFailure "20240101_000000" 1 (PyVal.obj [("x", PyVal.int 1)]) ⟨LatestFile.absent, []⟩).2.1.latest = false ∧
     (snapshotFilesOf (save_backup (fun s => s) true 100 noFailure "20240102_000000" 2 (PyVal.obj [("x", PyVal.int 1)]) (save_backup (fun s => s) true 100 noFailure "20240101_000000" 1 (PyVal.obj [("x", PyVal.int 1)]) ⟨LatestFile.absent, []⟩).2.1).2.1.dir).length
       = (snapshotFilesOf (⟨LatestFile.absent, []⟩ : Store).dir).length + 1) := by
  have h1 : (serializeVal (PyVal.obj [("x", PyVal.int 1)])).isSome = true := by
    simp [serializeVal, serializePairs, sortPairs, List.insertionSort]
  have h2 : is_data_changed (fun s => s) (PyVal.obj [("x", PyVal.int 1)])
      (⟨LatestFile.absent, []⟩ : Store).latest = true := by
    cases h : calculate_data_hash (fun s => s) (PyVal.obj [("x", PyVal.int 1)]) <;>
      simp [is_data_changed, get_latest_backup_hash, h]
  refine ⟨h1, h2, by simp, by decide, by decide, ?_⟩
  exact save_backup_idempotent_on_unchanged (fun s => s) 100
    "20240101_000000" "20240102_000000" 1 2 (PyVal.obj [("x", PyVal.int 1)])
    ⟨LatestFile.absent, []⟩ h1 h2 (by simp) (by decide) (by decide)

/-- Witness for C7 at a concrete input (an unserializable payload against an
absent latest pointer). -/
theorem is_data_changed_fail_open_witness :
    (calculate_data_hash (fun s => s) (PyVal.other 0) = none →
      is_data_changed (fun s => s) (PyVal.other 0) LatestFile.absent = true) ∧
    (LatestFile.absent = LatestFile.absent →
      is_data_changed (fun s => s) (PyVal.other 0) LatestFile.absent = true) ∧
    (LatestFile.absent = LatestFile.unreadable →
      is_data_changed (fun s => s) (PyVal.other 0) LatestFile.absent = true) ∧
    (get_latest_backup_hash (fun s => s) LatestFile.absent = none →
      is_data_changed (fun s => s) (PyVal.other 0) LatestFile.absent = true) ∧
    (is_data_changed (fun s => s) (PyVal.other 0) LatestFile.absent = false ↔
      ∃ d, calculate_data_hash (fun s => s) (PyVal.other 0) = some d ∧
           get_latest_backup_hash (fun s => s) LatestFile.absent = some d) :=
  is_data_changed_fail_open (fun s => s) (PyVal.other 0) LatestFile.absent
